import Mathlib

/-!
Verification development for the annomics MCP server
(`src/annomics_mcp/`): a shallow embedding of the tool-dispatch and
subprocess-orchestration layer, together with theorems settling the
behavioural claims about it.

The embedding follows the Python source closely:
  * pure helpers (`pathlib.Path.suffix`, substring tests, command-line
    assembly) become Lean functions;
  * the filesystem under an output directory becomes an explicit tree
    value, and `Path.rglob` becomes a recursive walk over that tree;
  * exceptions become `Except String`, carrying the exception's `str`;
  * the external process's behaviour (exit in time with a code and
    captured streams, run past the deadline, or fail to launch) is a
    parameter of the supervisor, and process-level effects that the
    caller cannot observe in the return value (spawning, killing) are
    recorded in explicit boolean effect flags.
-/

namespace Annomics

/-- Prefix test on character lists (used to build the substring test
mirroring Python's `in` operator on `str`). -/
def chPre : List Char → List Char → Bool
  | [], _ => true
  | _ :: _, [] => false
  | a :: as, b :: bs => a == b && chPre as bs

/-- Substring test on character lists: does `n` occur contiguously in the
second list?  Mirrors Python's `needle in hay`. -/
def chSub (n : List Char) : List Char → Bool
  | [] => n.isEmpty
  | c :: t => chPre n (c :: t) || chSub n t

/-- Python's `needle in hay` on strings. -/
def strContains (hay needle : String) : Bool :=
  chSub needle.data hay.data

/-- Index of the last occurrence of `c` in the list, if any. -/
def lastIdxOf (c : Char) : List Char → Option Nat
  | [] => none
  | a :: as =>
    match lastIdxOf c as with
    | some i => some (i + 1)
    | none => if a == c then some 0 else none

/-- `pathlib.Path.suffix` of a final path component: the substring from
the last dot, provided that dot is neither the first nor the last
character; otherwise the empty string.  (CPython: `i = name.rfind('.');
name[i:] if 0 < i < len(name) - 1 else ''`.) -/
def pySuffix (name : String) : String :=
  let cs := name.data
  match lastIdxOf '.' cs with
  | none => ""
  | some i => if 0 < i ∧ i < cs.length - 1 then String.mk (cs.drop i) else ""

/-! ## Filesystem model

A directory's content is a list of entries; each entry is a regular file
or a subdirectory.  File and directory names are the final path
components (in a real filesystem they are nonempty and contain no `/`;
theorems that need that assume it explicitly). -/

/-- One entry of a directory tree. -/
inductive FSEntry where
  | file (name : String)
  | dir (name : String) (children : List FSEntry)

/-- The regular files below a directory, as pairs of
(path relative to the scanned root, final component name).  This is the
embedding of iterating `output_dir.rglob("*")` filtered by `is_file()`:
files of a directory are listed in order, then each subdirectory is
descended into. `pre` is the accumulated relative prefix (empty, or
ending in `/`). -/
def walkFiles (pre : String) : List FSEntry → List (String × String)
  | [] => []
  | .file n :: rest => (pre ++ n, n) :: walkFiles pre rest
  | .dir n cs :: rest => walkFiles (pre ++ n ++ "/") cs ++ walkFiles pre rest

/-- The four category lists accumulated by `_scan_output_files`, in the
dict's insertion order. -/
structure GenFiles where
  annotation_files : List String := []
  summary_files : List String := []
  plot_files : List String := []
  combined_files : List String := []
deriving Repr, DecidableEq

/-- One iteration of the `for file_path in output_dir.rglob("*")` body of
`RScriptRunner._scan_output_files`, for a file with relative path
`pn.1` and final component name `pn.2`. -/
def scanStep (gf : GenFiles) (pn : String × String) : GenFiles :=
  if pySuffix pn.2 == ".tsv" then
    if strContains pn.2 "summary" then
      { gf with summary_files := gf.summary_files ++ [pn.1] }
    else if strContains pn.2 "combined" then
      { gf with combined_files := gf.combined_files ++ [pn.1] }
    else
      { gf with annotation_files := gf.annotation_files ++ [pn.1] }
  else if pySuffix pn.2 == ".png" || pySuffix pn.2 == ".pdf"
      || pySuffix pn.2 == ".svg" then
    { gf with plot_files := gf.plot_files ++ [pn.1] }
  else gf

/-- The manifest built for an existing output directory with entries
`entries`. -/
def scanManifest (entries : List FSEntry) : GenFiles :=
  (walkFiles "" entries).foldl scanStep {}

/-- `RScriptRunner._scan_output_files`.  The argument is `none` when the
output directory does not exist (`not output_dir.exists()`), in which
case the source returns the empty dict `{}`; otherwise it is the list
of entries below the directory.  The result models the returned Python
dict as an association list in insertion order. -/
def scan_output_files : Option (List FSEntry) → List (String × List String)
  | none => []
  | some entries =>
    let gf := scanManifest entries
    [("annotation_files", gf.annotation_files),
     ("summary_files", gf.summary_files),
     ("plot_files", gf.plot_files),
     ("combined_files", gf.combined_files)]

/-- Python dict key lookup `d[k]` on the association-list model of a
dict: `.ok` of the value, or `.error` with `str(KeyError(k))`, which is
the key wrapped in single quotes. -/
def dictGet {α : Type} (d : List (String × α)) (k : String) : Except String α :=
  match d.find? (fun p => p.1 == k) with
  | some p => .ok p.2
  | none => .error ("\x27" ++ k ++ "\x27")

/-! ## Genome registry (`schemas/genome_builds.py`) -/

/-- `GenomeBuild` pydantic model. -/
structure GenomeBuild where
  name : String
  description : String
  annotations : List String
  chromosome_style : String
  species : String
  assembly : String
deriving Repr, DecidableEq

/-- `SupportedGenomes.GENOMES`: the static registry, in the source's
insertion order. -/
def GENOMES : List (String × GenomeBuild) :=
  [("hg19", ⟨"hg19", "Human (GRCh37)", ["cpg", "genic"], "chr1",
      "Homo sapiens", "GRCh37"⟩),
   ("hg38", ⟨"hg38", "Human (GRCh38)", ["cpg", "genic"], "chr1",
      "Homo sapiens", "GRCh38"⟩),
   ("mm9", ⟨"mm9", "Mouse (NCBI37)", ["cpg", "genic"], "chr1",
      "Mus musculus", "NCBI37"⟩),
   ("mm10", ⟨"mm10", "Mouse (GRCh38)", ["cpg", "genic"], "chr1",
      "Mus musculus", "GRCm38"⟩),
   ("dm3", ⟨"dm3", "Drosophila (BDGP Release 5)", ["cpg", "genic"], "chr2L",
      "Drosophila melanogaster", "BDGP Release 5"⟩),
   ("dm6", ⟨"dm6", "Drosophila (BDGP Release 6)", ["cpg", "genic"], "chr2L",
      "Drosophila melanogaster", "BDGP Release 6"⟩),
   ("rn4", ⟨"rn4", "Rat (RGSC 3.4)", ["cpg", "genic"], "chr1",
      "Rattus norvegicus", "RGSC 3.4"⟩),
   ("rn5", ⟨"rn5", "Rat (RGSC 5.0)", ["cpg", "genic"], "chr1",
      "Rattus norvegicus", "RGSC 5.0"⟩),
   ("rn6", ⟨"rn6", "Rat (RGSC 6.0)", ["cpg", "genic"], "chr1",
      "Rattus norvegicus", "RGSC 6.0"⟩)]

/-- `SupportedGenomes.list_genomes()`: the keys in insertion order. -/
def list_genomes : List String := GENOMES.map Prod.fst

/-- `SupportedGenomes.is_supported(name)`: `name in cls.GENOMES`. -/
def is_supported (name : String) : Bool :=
  GENOMES.any (fun p => p.1 == name)

/-! ## Command-line serialization (`RScriptRunner._build_command_args`) -/

/-- The `input_files` argument of `run_annotation`: a single path string
or a list of path strings (`Union[str, List[str]]`). -/
inductive InputFiles where
  | single (path : String)
  | many (paths : List String)
deriving Repr, DecidableEq

/-- The comma-joining of the input files performed at the top of
`_build_command_args` (`",".join(input_files)` for a list, identity for
a single string). -/
def inputStr : InputFiles → String
  | .single s => s
  | .many l => String.intercalate "," l

/-- `RScriptRunner._build_command_args`. -/
def build_command_args (script_path : String) (input_files : InputFiles)
    (genome_build output_directory : String) (sample_name : Option String)
    (include_cpg include_genic : Bool)
    (plot_formats : List String) (combine_analysis : Bool) (pattern : String) :
    List String :=
  -- include_cpg and include_genic are accepted but never serialized,
  -- exactly as in the source; `if sample_name:` is Python truthiness,
  -- so the sample flag is skipped both for None and for ""
  ["Rscript", script_path,
   "-i", inputStr input_files,
   "-g", genome_build,
   "-o", output_directory,
   "--formats", String.intercalate "," plot_formats]
  ++ (match sample_name with
      | some s => if s.isEmpty then [] else ["-n", s]
      | none => [])
  ++ (if pattern != "*.bed" then ["--pattern", pattern] else [])
  ++ (if combine_analysis then ["--combine"] else [])

/-! ## Process supervisor (`RScriptRunner.run_annotation`)

The external process's behaviour is an explicit parameter: it either
exits before the deadline with a return code and captured streams, runs
past the deadline (so `asyncio.wait_for` raises `TimeoutError`), or
fails to launch (`create_subprocess_exec` raises, message `msg`). -/

/-- What the launched external process does on a given run. -/
inductive ProcBehavior where
  | exits (returncode : Int) (stdout stderr : String)
  | runsPast
  | launchFails (msg : String)
deriving Repr, DecidableEq

/-- The dictionary returned by `_process_results` on success. -/
structure AnnotationResults where
  returncode : Int
  stdout : String
  stderr : String
  output_directory : String
  generated_files : List (String × List String)
deriving Repr, DecidableEq

/-- `RScriptRunner._process_results`: raises `RScriptError` on a
non-zero return code, otherwise builds the results dict (scanning the
output directory, whose state is `outFS`). -/
def process_results (returncode : Int) (stdout stderr : String)
    (output_directory : String) (outFS : Option (List FSEntry)) :
    Except String AnnotationResults :=
  if returncode != 0 then
    .error ("R script failed with return code " ++ toString returncode
      ++ ":\n" ++ stderr)
  else
    .ok { returncode := returncode, stdout := stdout, stderr := stderr,
          output_directory := output_directory,
          generated_files := scan_output_files outFS }

/-- The observable outcome of one `run_annotation` call: the returned
value or raised `RScriptError` message, plus effect flags recording
whether a process was spawned and whether the supervisor issued any
kill/terminate on it.  The source contains no kill: the
`asyncio.TimeoutError` handler only re-raises `RScriptError`, and
cancelling `process.communicate()` does not terminate the child, so
`killedProcess` is `false` on every path. -/
structure RunOutcome where
  result : Except String AnnotationResults
  spawnedProcess : Bool
  killedProcess : Bool
deriving Repr

/-- `RScriptRunner.run_annotation`.  `plot_formats = none` models the
Python default `None`, replaced by `["png", "pdf"]`; `outFS` is the
state of the output directory when results are processed; `beh` is the
external process's behaviour on this run.  Errors raised by
`_process_results` inside the `try` block are caught by the generic
`except Exception` clause and re-wrapped as
`RScriptError(f"R script execution failed: {e}")`. -/
def run_annotation (script_path : String) (input_files : InputFiles)
    (genome_build output_directory : String)
    (sample_name : Option String := none)
    (include_cpg : Bool := true) (include_genic : Bool := true)
    (plot_formats : Option (List String) := none)
    (combine_analysis : Bool := false) (pattern : String := "*.bed")
    (timeout : Nat := 300)
    (beh : ProcBehavior) (outFS : Option (List FSEntry)) : RunOutcome :=
  let formats := plot_formats.getD ["png", "pdf"]
  -- cmd_args is built before the try block; recorded here only so the
  -- serialization is actually part of the run's definition
  let _cmd := build_command_args script_path input_files genome_build
    output_directory sample_name include_cpg include_genic formats
    combine_analysis pattern
  match beh with
  | .launchFails msg =>
    { result := .error ("R script execution failed: " ++ msg),
      spawnedProcess := false, killedProcess := false }
  | .runsPast =>
    { result := .error ("R script execution timed out after "
        ++ toString timeout ++ " seconds"),
      spawnedProcess := true, killedProcess := false }
  | .exits rc out err =>
    match process_results rc out err output_directory outFS with
    | .ok res =>
      { result := .ok res, spawnedProcess := true, killedProcess := false }
    | .error e =>
      { result := .error ("R script execution failed: " ++ e),
        spawnedProcess := true, killedProcess := false }

/-! ## Tool dispatcher (`server.py`) -/

/-- An `mcp.types.TextContent` response item (only the text matters at
this layer; `type` is always `"text"`). -/
structure TextContent where
  text : String
deriving Repr, DecidableEq

/-- The raw argument bag of a `tools/call` request, as the dict lookups
performed by `server.py` see it: each field is `some v` when the key is
present. -/
structure RawArgs where
  input_files : Option InputFiles := none
  genome_build : Option String := none
  output_directory : Option String := none
  sample_name : Option String := none
  include_cpg : Option Bool := none
  include_genic : Option Bool := none
  plot_formats : Option (List String) := none
  combine_analysis : Option Bool := none
  timeout : Option Nat := none
  file_path : Option String := none
  results_directory : Option String := none

/-- Result of running one handler: the returned response or the raised
exception's message, plus effect flags recording whether
`r_runner.run_annotation` was reached and whether an external process
was spawned. -/
structure HandlerOutcome where
  resp : Except String (List TextContent)
  ranSupervisor : Bool
  spawnedProcess : Bool
deriving Repr

/-- How Python's f-string renders the `input_files` value (a plain
string renders as itself, a list with `repr` of its elements). -/
def pyShowInput : InputFiles → String
  | .single s => s
  | .many l =>
    "[" ++ String.intercalate ", " (l.map (fun s => "\x27" ++ s ++ "\x27")) ++ "]"

/-- The success-response text of `handle_annotate_genomic_regions`,
given the field values already looked up from the results dict. -/
def annotateSuccessText (input_files : InputFiles) (genome_build : String)
    (outDir : String) (ann summ plots comb : List String) : String :=
  let body :=
    "✅ Genomic annotation completed successfully!\n\n**Input**: "
    ++ pyShowInput input_files
    ++ "\n**Genome Build**: " ++ genome_build
    ++ "\n**Output Directory**: " ++ outDir
    ++ "\n\n**Generated Files**:\n- Annotation files: " ++ toString ann.length
    ++ "\n- Summary files: " ++ toString summ.length
    ++ "\n- Plot files: " ++ toString plots.length
    ++ "\n- Combined files: " ++ toString comb.length
    ++ "\n\n**Key Output Files**:\n"
    ++ String.intercalate "\n" ((ann.take 5).map (fun f => "- " ++ f))
    ++ "\n\nYou can find all results in: " ++ outDir ++ "\n"
  if plots.isEmpty then body
  else body ++ "\n**Visualizations created**: "
    ++ String.intercalate ", " (plots.take 3)

/-- `handle_annotate_genomic_regions`.  Missing required keys raise
`KeyError` (whose `str` is the quoted key); an unsupported genome build
returns an error text before the runner is touched; `RScriptError`
raised by `run_annotation` is caught and rendered as a failure text;
`KeyError` raised while formatting the success text (a missing category
key in `generated_files`) propagates out of the handler. -/
def handle_annotate_genomic_regions (script_path : String)
    (beh : ProcBehavior) (outFS : Option (List FSEntry)) (a : RawArgs) :
    HandlerOutcome :=
  match a.input_files with
  | none => ⟨.error "\x27input_files\x27", false, false⟩
  | some input_files =>
  match a.genome_build with
  | none => ⟨.error "\x27genome_build\x27", false, false⟩
  | some genome_build =>
  match a.output_directory with
  | none => ⟨.error "\x27output_directory\x27", false, false⟩
  | some output_directory =>
  let sample_name := a.sample_name
  let include_cpg := a.include_cpg.getD true
  let include_genic := a.include_genic.getD true
  let plot_formats := a.plot_formats.getD ["png", "pdf"]
  let combine_analysis := a.combine_analysis.getD false
  let timeout := a.timeout.getD 300
  if !is_supported genome_build then
    ⟨.ok [⟨"Error: Unsupported genome build \x27" ++ genome_build
        ++ "\x27. Available: " ++ String.intercalate ", " list_genomes⟩],
      false, false⟩
  else
    let ro := run_annotation script_path input_files genome_build
      output_directory sample_name include_cpg include_genic
      (some plot_formats) combine_analysis "*.bed" timeout beh outFS
    match ro.result with
    | .error e =>
      ⟨.ok [⟨"❌ Annotation failed: " ++ e⟩], true, ro.spawnedProcess⟩
    | .ok res =>
      let fmtd : Except String String := do
        let ann ← dictGet res.generated_files "annotation_files"
        let summ ← dictGet res.generated_files "summary_files"
        let plots ← dictGet res.generated_files "plot_files"
        let comb ← dictGet res.generated_files "combined_files"
        pure (annotateSuccessText input_files genome_build
          res.output_directory ann summ plots comb)
      match fmtd with
      | .ok t => ⟨.ok [⟨t⟩], true, ro.spawnedProcess⟩
      | .error e => ⟨.error e, true, ro.spawnedProcess⟩

/-- The response text of `handle_list_supported_genomes`, assembled from
the static registry. -/
def listGenomesText : String :=
  let genomes_info := GENOMES.map (fun p =>
    "**" ++ p.1 ++ "**: " ++ p.2.description
    ++ "\n  - Species: " ++ p.2.species
    ++ "\n  - Assembly: " ++ p.2.assembly
    ++ "\n  - Annotations: " ++ String.intercalate ", " p.2.annotations
    ++ "\n")
  String.mk [Char.ofNat 0x1F9EC] ++ " **Supported Genome Builds**\n\n"
  ++ String.intercalate "\n" genomes_info
  ++ "\n\n**Usage**: Specify any of these genome names in the `genome_build` parameter when calling `annotate_genomic_regions`.\n\n**Example**: Use \"mm10\" for mouse genome analysis or \"hg38\" for human genome analysis.\n"

/-- The fixed response of `handle_create_comparison_plot`. -/
def comparisonPlotText : String :=
  String.mk [Char.ofNat 0x1F527]
  ++ " Comparison plot creation is not yet implemented. Use the --combine flag in annotate_genomic_regions for basic comparisons."

/-- Environment for the two handlers whose behaviour is dominated by
filesystem and pandas I/O (`handle_validate_bed_format`,
`handle_get_annotation_summary`): each is abstracted as a function from
the argument bag to its returned response or raised exception. -/
structure HandlerEnv where
  validateBed : RawArgs → Except String (List TextContent)
  getSummary : RawArgs → Except String (List TextContent)

/-- The `if/elif` handler chain in the `try` block of
`handle_call_tool`, including the unknown-tool fallback. -/
def dispatch_body (script_path : String) (beh : ProcBehavior)
    (outFS : Option (List FSEntry)) (env : HandlerEnv)
    (name : String) (args : RawArgs) : HandlerOutcome :=
  if name == "annotate_genomic_regions" then
    handle_annotate_genomic_regions script_path beh outFS args
  else if name == "list_supported_genomes" then
    ⟨.ok [⟨listGenomesText⟩], false, false⟩
  else if name == "validate_bed_format" then
    ⟨env.validateBed args, false, false⟩
  else if name == "get_annotation_summary" then
    ⟨env.getSummary args, false, false⟩
  else if name == "create_comparison_plot" then
    ⟨.ok [⟨comparisonPlotText⟩], false, false⟩
  else
    ⟨.ok [⟨"Unknown tool: " ++ name⟩], false, false⟩

/-- The fixed response returned when the global runner handle is
uninitialized. -/
def notInitializedText : String :=
  "Error: R script runner not initialized. Please check R environment setup."

/-- `handle_call_tool`: the uninitialized-runner guard, then the handler
chain inside `try`, with `except Exception` converting any raised
exception into the uniform error response.  `runner` is the global
`r_runner` handle (`some script_path` once initialized). -/
def handle_call_tool (runner : Option String) (beh : ProcBehavior)
    (outFS : Option (List FSEntry)) (env : HandlerEnv)
    (name : String) (args : RawArgs) : List TextContent :=
  match runner with
  | none => [⟨notInitializedText⟩]
  | some script_path =>
    match (dispatch_body script_path beh outFS env name args).resp with
    | .ok r => r
    | .error e => [⟨"Error executing " ++ name ++ ": " ++ e⟩]

/-! ## Simple server and transport loop (`simple_server.py`) -/

/-- A tool registered with `SimpleMCPServer.register_tool`: the stored
dict has the name, description and an input schema whose `required`
list is all declared parameter names. -/
structure RegisteredTool where
  name : String
  description : String
  paramNames : List String
deriving Repr, DecidableEq

/-- The argument dict of a simple-server `tools/call` request, as seen
by the `.get` lookups in the handlers. -/
structure SimpleArgs where
  input_file : Option String := none
  genome_build : Option String := none
  output_dir : Option String := none
  file_path : Option String := none
deriving Repr

/-- `request["params"]`, when present. -/
structure SimpleParams where
  name : Option String := none
  arguments : Option SimpleArgs := none
deriving Repr

/-- One parsed request line. -/
structure SimpleReq where
  method : Option String := none
  params : Option SimpleParams := none
deriving Repr

/-- The response dict shapes produced by `simple_server.py`:
`{"tools": [...]}`, `{"error": msg}`, `{"content": [{"type": "text",
"text": t}]}` (optionally with `"isError": true`), and the transport
loop's `{"error": {"code": c, "message": m}}`. -/
inductive SimpleResponse where
  | toolsList (tools : List RegisteredTool)
  | errorMsg (msg : String)
  | content (text : String) (isError : Bool)
  | protocolError (code : Int) (message : String)
deriving Repr

/-- What the external process spawned by `_annotate_regions` does (this
path has no timeout: `proc.communicate()` is awaited unboundedly). -/
inductive SimpleProcBehavior where
  | exits (returncode : Int) (stdout stderr : String)
  | launchFails (msg : String)
deriving Repr, DecidableEq

/-- Environment of the simple server's handlers: the behaviour of the
annotation subprocess, and the outcome of `_validate_bed` (dominated by
file I/O, abstracted as a function of the argument bag). -/
structure SimpleEnv where
  annotateProc : SimpleProcBehavior
  validateBed : SimpleArgs → SimpleResponse

/-- `SimpleMCPServer._annotate_regions`. -/
def simple_annotate_regions (env : SimpleEnv) (args : SimpleArgs) :
    SimpleResponse :=
  let _input_file := args.input_file.getD ""
  let _genome_build := args.genome_build.getD "hg38"
  let _output_dir := args.output_dir.getD "/app/output"
  match env.annotateProc with
  | .exits rc out err =>
    if rc == 0 then
      .content ("✅ Annotation completed successfully!\n\nOutput: " ++ out)
        false
    else
      .content ("❌ Annotation failed:\n" ++ err) true
  | .launchFails msg =>
    .content ("❌ Error: " ++ msg) true

/-- `SimpleMCPServer._list_genomes`' fixed response. -/
def simpleListGenomesText : String :=
  let genomes : List (String × String) :=
    [("hg38", "Human (GRCh38/hg38)"), ("hg19", "Human (GRCh37/hg19)"),
     ("mm10", "Mouse (GRCm38/mm10)"), ("mm9", "Mouse (NCBI37/mm9)"),
     ("dm6", "Drosophila (BDGP6/dm6)"), ("dm3", "Drosophila (BDGP5/dm3)"),
     ("rn6", "Rat (Rnor_6.0/rn6)"), ("rn5", "Rat (Rnor_5.0/rn5)"),
     ("rn4", "Rat (RGSC_3.4/rn4)")]
  let genome_list := String.intercalate "\n"
    (genomes.map (fun p => "• **" ++ p.1 ++ "**: " ++ p.2))
  "## Supported Genome Builds\n\n" ++ genome_list
  ++ "\n\nUse any of these genome codes in your annotation requests."

/-- How Python renders `f"{method}"` for `request.get("method")`. -/
def pyShowOptStr : Option String → String
  | none => "None"
  | some s => s

/-- The tools registered by `run_stdio_server`. -/
def registeredSimpleTools : List RegisteredTool :=
  [⟨"annotate_genomic_regions",
    "Annotate genomic regions from BED files using annotatr",
    ["input_file", "genome_build", "output_dir"]⟩,
   ⟨"list_supported_genomes", "List all supported genome builds", []⟩,
   ⟨"validate_bed_format", "Validate BED file format and structure",
    ["file_path"]⟩]

/-- `SimpleMCPServer.handle_request`.  Dict accesses
`request["params"]["name"]` / `["arguments"]` raise `KeyError` when
missing, which propagates out of the method (to the transport loop's
`except`). -/
def simple_handle_request (env : SimpleEnv) (req : SimpleReq) :
    Except String SimpleResponse :=
  if req.method == some "tools/list" then
    .ok (.toolsList registeredSimpleTools)
  else if req.method == some "tools/call" then
    match req.params with
    | none => .error "\x27params\x27"
    | some ps =>
      match ps.name with
      | none => .error "\x27name\x27"
      | some tool_name =>
        match ps.arguments with
        | none => .error "\x27arguments\x27"
        | some args =>
          if tool_name == "annotate_genomic_regions" then
            .ok (simple_annotate_regions env args)
          else if tool_name == "list_supported_genomes" then
            .ok (.content simpleListGenomesText false)
          else if tool_name == "validate_bed_format" then
            .ok (env.validateBed args)
          else
            .ok (.errorMsg ("Unknown tool: " ++ tool_name))
  else
    .ok (.errorMsg ("Unknown method: " ++ pyShowOptStr req.method))

/-- One line read from the input channel: either it parses into a
request, or parsing it raises (message `errMsg`). -/
inductive InLine where
  | malformed (errMsg : String)
  | parsed (req : SimpleReq)

/-- The body of one iteration of the `while True` loop of
`run_stdio_server` for a non-empty line: any exception — a parse
failure or one escaping `handle_request` — is caught and answered with
the fixed error code `-32603`. -/
def processLine (env : SimpleEnv) : InLine → SimpleResponse
  | .malformed e => .protocolError (-32603) e
  | .parsed req =>
    match simple_handle_request env req with
    | .ok r => r
    | .error e => .protocolError (-32603) e

/-- `run_stdio_server`'s transport loop over the whole input channel:
one response per line, in order; the loop `break`s (returns normally)
exactly when `readline` reports end-of-input. -/
def run_stdio_loop (env : SimpleEnv) : List InLine → List SimpleResponse
  | [] => []
  | l :: rest => processLine env l :: run_stdio_loop env rest

/-! ## Derived classification predicates

Read off the branch conditions of the `_scan_output_files` loop body, as
the spec states them: an ordered decision list over the file's final
component name. -/

/-- The file has extension `.tsv`. -/
def isTsv (n : String) : Bool := pySuffix n == ".tsv"

/-- Summary file: `.tsv` containing `"summary"`. -/
def catSummary (n : String) : Bool := isTsv n && strContains n "summary"

/-- Combined file: `.tsv` not containing `"summary"` but containing
`"combined"`. -/
def catCombined (n : String) : Bool :=
  isTsv n && !strContains n "summary" && strContains n "combined"

/-- Annotation file: any other `.tsv`. -/
def catAnnotation (n : String) : Bool :=
  isTsv n && !strContains n "summary" && !strContains n "combined"

/-- Plot file: extension in `{.png, .pdf, .svg}` (a `.tsv` can never
reach this branch). -/
def catPlot (n : String) : Bool :=
  !isTsv n && (pySuffix n == ".png" || pySuffix n == ".pdf"
    || pySuffix n == ".svg")

/-- The relative paths, in order, of the walked files whose name
satisfies `c`. -/
def catFiles (c : String → Bool) (ps : List (String × String)) : List String :=
  (ps.filter (fun pn => c pn.2)).map Prod.fst

/-- The spec's four-kind example directory: one summary table, one
annotation table, one combined table, one plot. -/
def exampleTree : List FSEntry :=
  [.file "x_summary.tsv", .file "x_annotated.tsv",
   .file "combined_y.tsv", .file "plot.pdf"]

/-- A directory whose only `.tsv` matches both the "summary" and the
"combined" naming rule. -/
def overlapTree : List FSEntry :=
  [.file "a_summary_combined.tsv", .file "b_combined.tsv"]

/-- A handler environment whose abstracted handlers return trivial
responses (used only to instantiate theorems at concrete inputs). -/
def trivEnv : HandlerEnv := ⟨fun _ => .ok [], fun _ => .ok []⟩

/-- A simple-server environment with a fixed process behaviour and a
trivial BED validator (used only to instantiate theorems). -/
def trivSimpleEnv : SimpleEnv :=
  ⟨.exits 0 "done" "", fun _ => .content "ok" false⟩

/-! ## Helper lemmas -/

lemma chPre_append_self (n b : List Char) : chPre n (n ++ b) = true := by
  induction n with
  | nil => rfl
  | cons a as ih => simp [chPre, ih]

lemma chSub_sandwich (a n b : List Char) : chSub n (a ++ n ++ b) = true := by
  induction a with
  | nil =>
    cases n with
    | nil => cases b <;> simp [chSub, chPre]
    | cons c cs =>
      have h := chPre_append_self (c :: cs) b
      simp only [List.cons_append] at h
      simp [chSub, h]
  | cons x xs ih =>
    show (chPre n (x :: (xs ++ n ++ b)) || chSub n (xs ++ n ++ b)) = true
    rw [ih]
    simp

/-- Python's `in` finds a substring wherever the string splits around
it. -/
lemma strContains_sandwich (pre s post : String) :
    strContains (pre ++ s ++ post) s = true := by
  simp only [strContains, String.data_append]
  exact chSub_sandwich pre.data s.data post.data

lemma strContains_append_self (pre s : String) :
    strContains (pre ++ s) s = true := by
  have h := chSub_sandwich pre.data s.data []
  simpa [strContains, String.data_append] using h

/-! Field-by-field characterization of one scan step. -/

lemma scanStep_summary (gf : GenFiles) (pn : String × String) :
    (scanStep gf pn).summary_files
      = gf.summary_files ++ (if catSummary pn.2 then [pn.1] else []) := by
  unfold scanStep catSummary isTsv
  split_ifs <;> simp_all

lemma scanStep_combined (gf : GenFiles) (pn : String × String) :
    (scanStep gf pn).combined_files
      = gf.combined_files ++ (if catCombined pn.2 then [pn.1] else []) := by
  unfold scanStep catCombined isTsv
  split_ifs <;> simp_all

lemma scanStep_annotation (gf : GenFiles) (pn : String × String) :
    (scanStep gf pn).annotation_files
      = gf.annotation_files ++ (if catAnnotation pn.2 then [pn.1] else []) := by
  unfold scanStep catAnnotation isTsv
  split_ifs <;> simp_all

lemma scanStep_plot (gf : GenFiles) (pn : String × String) :
    (scanStep gf pn).plot_files
      = gf.plot_files ++ (if catPlot pn.2 then [pn.1] else []) := by
  unfold scanStep catPlot isTsv
  split_ifs <;> simp_all

lemma catFiles_cons (c : String → Bool) (p : String × String)
    (t : List (String × String)) :
    catFiles c (p :: t)
      = (if c p.2 then [p.1] else []) ++ catFiles c t := by
  unfold catFiles
  rw [List.filter_cons]
  split_ifs <;> simp_all

lemma foldl_scanStep_summary (ps : List (String × String)) (gf : GenFiles) :
    (ps.foldl scanStep gf).summary_files
      = gf.summary_files ++ catFiles catSummary ps := by
  induction ps generalizing gf with
  | nil => simp [catFiles]
  | cons p t ih =>
    rw [List.foldl_cons, ih, scanStep_summary, catFiles_cons,
      List.append_assoc]

lemma foldl_scanStep_combined (ps : List (String × String)) (gf : GenFiles) :
    (ps.foldl scanStep gf).combined_files
      = gf.combined_files ++ catFiles catCombined ps := by
  induction ps generalizing gf with
  | nil => simp [catFiles]
  | cons p t ih =>
    rw [List.foldl_cons, ih, scanStep_combined, catFiles_cons,
      List.append_assoc]

lemma foldl_scanStep_annotation (ps : List (String × String)) (gf : GenFiles) :
    (ps.foldl scanStep gf).annotation_files
      = gf.annotation_files ++ catFiles catAnnotation ps := by
  induction ps generalizing gf with
  | nil => simp [catFiles]
  | cons p t ih =>
    rw [List.foldl_cons, ih, scanStep_annotation, catFiles_cons,
      List.append_assoc]

lemma foldl_scanStep_plot (ps : List (String × String)) (gf : GenFiles) :
    (ps.foldl scanStep gf).plot_files
      = gf.plot_files ++ catFiles catPlot ps := by
  induction ps generalizing gf with
  | nil => simp [catFiles]
  | cons p t ih =>
    rw [List.foldl_cons, ih, scanStep_plot, catFiles_cons,
      List.append_assoc]

/-- The four manifest fields, characterized as ordered filters of the
file walk. -/
lemma scanManifest_fields (entries : List FSEntry) :
    (scanManifest entries).summary_files
        = catFiles catSummary (walkFiles "" entries)
    ∧ (scanManifest entries).combined_files
        = catFiles catCombined (walkFiles "" entries)
    ∧ (scanManifest entries).annotation_files
        = catFiles catAnnotation (walkFiles "" entries)
    ∧ (scanManifest entries).plot_files
        = catFiles catPlot (walkFiles "" entries) := by
  refine ⟨?_, ?_, ?_, ?_⟩
  · simpa using foldl_scanStep_summary (walkFiles "" entries) {}
  · simpa using foldl_scanStep_combined (walkFiles "" entries) {}
  · simpa using foldl_scanStep_annotation (walkFiles "" entries) {}
  · simpa using foldl_scanStep_plot (walkFiles "" entries) {}

lemma mem_catFiles {c : String → Bool} {ps : List (String × String)}
    {r : String} :
    r ∈ catFiles c ps ↔ ∃ n, (r, n) ∈ ps ∧ c n = true := by
  unfold catFiles
  constructor
  · intro h
    obtain ⟨pn, hpn, hfst⟩ := List.mem_map.mp h
    obtain ⟨hmem, hc⟩ := List.mem_filter.mp hpn
    exact ⟨pn.2, by rwa [show (r, pn.2) = pn from by rw [← hfst]], hc⟩
  · rintro ⟨n, hmem, hc⟩
    exact List.mem_map.mpr ⟨(r, n), List.mem_filter.mpr ⟨hmem, hc⟩, rfl⟩

/-- The four category predicates are pairwise exclusive on any one
name. -/
lemma cat_pairwise_exclusive (n : String) :
    (catSummary n = true → catCombined n = false)
    ∧ (catSummary n = true → catAnnotation n = false)
    ∧ (catSummary n = true → catPlot n = false)
    ∧ (catCombined n = true → catAnnotation n = false)
    ∧ (catCombined n = true → catPlot n = false)
    ∧ ( catAnnotation n = true → catPlot n = false) := by
  unfold catSummary catCombined catAnnotation catPlot
  cases h1 : isTsv n <;> cases h2 : strContains n "summary"
    <;> cases h3 : strContains n "combined" <;> simp

/-- Two category lists of one scan share no relative path, provided a
relative path determines the file's final component (true of any real
directory tree). -/
lemma scan_lists_disjoint {entries : List FSEntry}
    (hInj : ∀ pn ∈ walkFiles "" entries, ∀ pn' ∈ walkFiles "" entries,
      pn.1 = pn'.1 → pn.2 = pn'.2)
    {c₁ c₂ : String → Bool} (hx : ∀ m, c₁ m = true → c₂ m = false)
    {r : String} (h1 : r ∈ catFiles c₁ (walkFiles "" entries)) :
    r ∉ catFiles c₂ (walkFiles "" entries) := by
  intro h2
  obtain ⟨n1, hn1, hc1⟩ := mem_catFiles.mp h1
  obtain ⟨n2, hn2, hc2⟩ := mem_catFiles.mp h2
  have heq : n1 = n2 := hInj (r, n1) hn1 (r, n2) hn2 rfl
  rw [← heq, hx n1 hc1] at hc2
  exact Bool.false_ne_true hc2

/-- A walked file with a category-`c`-false name never lands in the
`c` list, provided relative paths determine names. -/
lemma notMem_catFiles_of_false {entries : List FSEntry}
    (hInj : ∀ pn ∈ walkFiles "" entries, ∀ pn' ∈ walkFiles "" entries,
      pn.1 = pn'.1 → pn.2 = pn'.2)
    {c : String → Bool} {r n : String}
    (hmem : (r, n) ∈ walkFiles "" entries) (hc : c n = false) :
    r ∉ catFiles c (walkFiles "" entries) := by
  intro h
  obtain ⟨n', hn', hc'⟩ := mem_catFiles.mp h
  have heq : n' = n := hInj (r, n') hn' (r, n) hmem rfl
  rw [heq, hc] at hc'
  exact Bool.false_ne_true hc'

/-- Concrete evaluation of the walk on the spec's example tree
(`walkFiles` is defined by well-founded recursion, so concrete values
are established through its equations rather than by kernel
reduction). -/
lemma walkFiles_exampleTree :
    walkFiles "" exampleTree
      = [("x_summary.tsv", "x_summary.tsv"),
         ("x_annotated.tsv", "x_annotated.tsv"),
         ("combined_y.tsv", "combined_y.tsv"),
         ("plot.pdf", "plot.pdf")] := by
  simp only [exampleTree, walkFiles]
  decide

lemma walkFiles_overlapTree :
    walkFiles "" overlapTree
      = [("a_summary_combined.tsv", "a_summary_combined.tsv"),
         ("b_combined.tsv", "b_combined.tsv")] := by
  simp only [overlapTree, walkFiles]
  decide

lemma scanManifest_exampleTree :
    scanManifest exampleTree
      = { annotation_files := ["x_annotated.tsv"],
          summary_files := ["x_summary.tsv"],
          plot_files := ["plot.pdf"],
          combined_files := ["combined_y.tsv"] } := by
  rw [scanManifest, walkFiles_exampleTree]
  decide

/-! ## Claim theorems -/

/-- C2 counterexample: scanning a nonexistent directory returns the
empty dict, which contains none of the four category keys — so the
result is not a manifest with all four sequences present and empty. -/
theorem scan_nonexistent_missing_keys :
    scan_output_files none = []
    ∧ (scan_output_files none).find? (fun p => p.1 == "annotation_files")
        = none
    ∧ dictGet (scan_output_files none) "annotation_files"
        = .error "\x27annotation_files\x27" :=
  ⟨rfl, rfl, rfl⟩

/-- C2 (amended): for a path that does not name an existing directory,
the scan returns the empty mapping — no category keys at all — and
never raises (it is a total function of the directory state). -/
theorem scan_nonexistent_empty_dict : scan_output_files none = [] := rfl

/-- C4: the classifier assigns each walked regular file by the ordered
rules — a `.tsv` containing "summary" to summary files, any other
`.tsv` containing "combined" to combined files, any other `.tsv` to
annotation files, an extension in `{.png, .pdf, .svg}` to plot files —
a file matching none of these appears in no category, and the spec's
four-file example yields manifests of length 1/1/1/1 with no file in
two categories. -/
theorem scan_assigns_by_rules (entries : List FSEntry)
    (hInj : ∀ pn ∈ walkFiles "" entries, ∀ pn' ∈ walkFiles "" entries,
      pn.1 = pn'.1 → pn.2 = pn'.2) :
    ((scanManifest entries).summary_files
        = catFiles catSummary (walkFiles "" entries)
     ∧ (scanManifest entries).combined_files
        = catFiles catCombined (walkFiles "" entries)
     ∧ (scanManifest entries).annotation_files
        = catFiles catAnnotation (walkFiles "" entries)
     ∧ (scanManifest entries).plot_files
        = catFiles catPlot (walkFiles "" entries))
    ∧ (∀ r n, (r, n) ∈ walkFiles "" entries →
        (catSummary n = true → r ∈ (scanManifest entries).summary_files)
      ∧ (catCombined n = true → r ∈ (scanManifest entries).combined_files)
      ∧ ( catAnnotation n = true →
          r ∈ (scanManifest entries).annotation_files)
      ∧ (catPlot n = true → r ∈ (scanManifest entries).plot_files))
    ∧ (∀ r n, (r, n) ∈ walkFiles "" entries → pySuffix n ≠ ".tsv" →
        pySuffix n ∉ [".png", ".pdf", ".svg"] →
        r ∉ (scanManifest entries).annotation_files
      ∧ r ∉ (scanManifest entries).summary_files
      ∧ r ∉ (scanManifest entries).plot_files
      ∧ r ∉ (scanManifest entries).combined_files)
    ∧ ((scanManifest exampleTree).annotation_files = ["x_annotated.tsv"]
     ∧ (scanManifest exampleTree).summary_files = ["x_summary.tsv"]
     ∧ (scanManifest exampleTree).combined_files = ["combined_y.tsv"]
     ∧ (scanManifest exampleTree).plot_files = ["plot.pdf"]
     ∧ (scanManifest exampleTree).annotation_files.length = 1
     ∧ (scanManifest exampleTree).summary_files.length = 1
     ∧ (scanManifest exampleTree).combined_files.length = 1
     ∧ (scanManifest exampleTree).plot_files.length = 1) := by
  obtain ⟨e1, e2, e3, e4⟩ := scanManifest_fields entries
  refine ⟨⟨e1, e2, e3, e4⟩, ?_, ?_, by rw [scanManifest_exampleTree]; decide⟩
  · intro r n hmem
    exact ⟨fun hc => e1 ▸ mem_catFiles.mpr ⟨n, hmem, hc⟩,
           fun hc => e2 ▸ mem_catFiles.mpr ⟨n, hmem, hc⟩,
           fun hc => e3 ▸ mem_catFiles.mpr ⟨n, hmem, hc⟩,
           fun hc => e4 ▸ mem_catFiles.mpr ⟨n, hmem, hc⟩⟩
  · intro r n hmem h1 h2
    have hts : isTsv n = false := by
      unfold isTsv; exact beq_eq_false_iff_ne.mpr h1
    simp only [List.mem_cons, List.not_mem_nil, or_false, not_or] at h2
    obtain ⟨hp1, hp2, hp3⟩ := h2
    have hcS : catSummary n = false := by simp [catSummary, hts]
    have hcC : catCombined n = false := by simp [catCombined, hts]
    have hcA : catAnnotation n = false := by simp [ catAnnotation, hts]
    have hcP : catPlot n = false := by
      simp [catPlot, hts, beq_eq_false_iff_ne.mpr hp1,
        beq_eq_false_iff_ne.mpr hp2, beq_eq_false_iff_ne.mpr hp3]
    exact ⟨e3 ▸ notMem_catFiles_of_false hInj hmem hcA,
           e1 ▸ notMem_catFiles_of_false hInj hmem hcS,
           e4 ▸ notMem_catFiles_of_false hInj hmem hcP,
           e2 ▸ notMem_catFiles_of_false hInj hmem hcC⟩

/-- Witness for C4: the spec's example tree satisfies the
path-determines-name hypothesis, and the example file `x_summary.tsv`
is classified to the summary category. -/
theorem scan_assigns_by_rules_witness :
    (scanManifest exampleTree).summary_files = ["x_summary.tsv"]
    ∧ (scanManifest exampleTree).annotation_files.length = 1 :=
  ⟨((scan_assigns_by_rules exampleTree
      (by rw [walkFiles_exampleTree]; decide)).2.2.2).2.1,
   ((scan_assigns_by_rules exampleTree
      (by rw [walkFiles_exampleTree]; decide)).2.2.2).2.2.2.2.1⟩

/-- C9: a `.tsv` whose name contains both "summary" and "combined" is
placed in the summary category only (the summary test precedes the
combined test), and the four category lists are pairwise disjoint on
any tree whose relative paths determine file names. -/
theorem scan_summary_first_disjoint (entries : List FSEntry)
    (hInj : ∀ pn ∈ walkFiles "" entries, ∀ pn' ∈ walkFiles "" entries,
      pn.1 = pn'.1 → pn.2 = pn'.2) :
    (∀ r n, (r, n) ∈ walkFiles "" entries → pySuffix n = ".tsv" →
        strContains n "summary" = true → strContains n "combined" = true →
        r ∈ (scanManifest entries).summary_files
      ∧ r ∉ (scanManifest entries).combined_files
      ∧ r ∉ (scanManifest entries).annotation_files
      ∧ r ∉ (scanManifest entries).plot_files)
    ∧ (∀ r, r ∈ (scanManifest entries).summary_files →
        r ∉ (scanManifest entries).combined_files)
    ∧ (∀ r, r ∈ (scanManifest entries).summary_files →
        r ∉ (scanManifest entries).annotation_files)
    ∧ (∀ r, r ∈ (scanManifest entries).summary_files →
        r ∉ (scanManifest entries).plot_files)
    ∧ (∀ r, r ∈ (scanManifest entries).combined_files →
        r ∉ (scanManifest entries).annotation_files)
    ∧ (∀ r, r ∈ (scanManifest entries).combined_files →
        r ∉ (scanManifest entries).plot_files)
    ∧ (∀ r, r ∈ (scanManifest entries).annotation_files →
        r ∉ (scanManifest entries).plot_files) := by
  obtain ⟨e1, e2, e3, e4⟩ := scanManifest_fields entries
  refine ⟨?_, ?_, ?_, ?_, ?_, ?_, ?_⟩
  · intro r n hmem hts hsum hcomb
    have hTsv : isTsv n = true := by unfold isTsv; exact beq_iff_eq.mpr hts
    have hS : catSummary n = true := by simp [catSummary, hTsv, hsum]
    have hC : catCombined n = false := by simp [catCombined, hsum]
    have hA : catAnnotation n = false := by simp [ catAnnotation, hsum]
    have hP : catPlot n = false := by simp [catPlot, hTsv]
    exact ⟨e1 ▸ mem_catFiles.mpr ⟨n, hmem, hS⟩,
           e2 ▸ notMem_catFiles_of_false hInj hmem hC,
           e3 ▸ notMem_catFiles_of_false hInj hmem hA,
           e4 ▸ notMem_catFiles_of_false hInj hmem hP⟩
  · intro r h
    exact e2 ▸ scan_lists_disjoint hInj
      (fun m hm => ((cat_pairwise_exclusive m).1) hm) (e1 ▸ h)
  · intro r h
    exact e3 ▸ scan_lists_disjoint hInj
      (fun m hm => ((cat_pairwise_exclusive m).2.1) hm) (e1 ▸ h)
  · intro r h
    exact e4 ▸ scan_lists_disjoint hInj
      (fun m hm => ((cat_pairwise_exclusive m).2.2.1) hm) (e1 ▸ h)
  · intro r h
    exact e3 ▸ scan_lists_disjoint hInj
      (fun m hm => ((cat_pairwise_exclusive m).2.2.2.1) hm) (e2 ▸ h)
  · intro r h
    exact e4 ▸ scan_lists_disjoint hInj
      (fun m hm => ((cat_pairwise_exclusive m).2.2.2.2.1) hm) (e2 ▸ h)
  · intro r h
    exact e4 ▸ scan_lists_disjoint hInj
      (fun m hm => ((cat_pairwise_exclusive m).2.2.2.2.2) hm) (e3 ▸ h)

/-- Witness for C9: in a directory with `a_summary_combined.tsv` (which
matches both naming rules) and `b_combined.tsv`, the double-match file
lands in the summary list and not in the combined list. -/
theorem scan_summary_first_disjoint_witness :
    "a_summary_combined.tsv" ∈ (scanManifest overlapTree).summary_files
    ∧ "a_summary_combined.tsv" ∉ (scanManifest overlapTree).combined_files := by
  have h := (scan_summary_first_disjoint overlapTree
      (by rw [walkFiles_overlapTree]; decide)).1
    "a_summary_combined.tsv" "a_summary_combined.tsv"
    (by rw [walkFiles_overlapTree]; decide) (by decide) (by decide) (by decide)
  exact ⟨h.1, h.2.1⟩

/-- C1: at the failing input — a 1-second deadline and a process that
never exits before it — the supervisor raises the timed-out
`RScriptError` (a message distinct from every non-zero-exit failure
message, and never a success), but `killedProcess` is `false`: the
`asyncio.TimeoutError` handler only re-raises, it never kills or
terminates the spawned process, diverging from the claim's "forcibly
terminates". -/
theorem run_timeout_no_kill :
    ( run_annotation "/s.R" (.single "a.bed") "hg38" "/out" none true true
      none false "*.bed" 1 .runsPast none).killedProcess = false
    ∧ ( run_annotation "/s.R" (.single "a.bed") "hg38" "/out" none true true
        none false "*.bed" 1 .runsPast none).result
        = .error "R script execution timed out after 1 seconds"
    ∧ ( run_annotation "/s.R" (.single "a.bed") "hg38" "/out" none true true
        none false "*.bed" 1 .runsPast none).result.isOk = false
    ∧ ( run_annotation "/s.R" (.single "a.bed") "hg38" "/out" none true true
        none false "*.bed" 1 (.exits 1 "" "boom") none).result
        = .error
          "R script execution failed: R script failed with return code 1:\nboom"
    ∧ ("R script execution timed out after 1 seconds"
        == "R script execution failed: R script failed with return code 1:\nboom")
        = false :=
  ⟨rfl, rfl, rfl, rfl, by decide⟩

/-- C3 counterexample: an argument bag with an explicitly empty
input-file list and a supported genome is not rejected — the handler
reaches the supervisor and a process is spawned (with `-i ""`), contrary
to the claim that an empty normalized file list fails validation before
any external process is launched. -/
theorem empty_input_reaches_supervisor :
    (handle_annotate_genomic_regions "/s.R" (.exits 0 "" "") (some [])
      { input_files := some (.many []), genome_build := some "hg38",
        output_directory := some "/out" }).ranSupervisor = true
    ∧ (handle_annotate_genomic_regions "/s.R" (.exits 0 "" "") (some [])
        { input_files := some (.many []), genome_build := some "hg38",
          output_directory := some "/out" }).spawnedProcess = true :=
  ⟨rfl, rfl⟩

/-- C3 (amended): a missing required field fails as a `KeyError` and an
unsupported genome build fails as a validation text, both before the
supervisor is invoked; but an empty input-file sequence is **not**
rejected — with a supported genome it reaches the supervisor. -/
theorem annotate_validation_order (sp : String) (beh : ProcBehavior)
    (outFS : Option (List FSEntry)) (a : RawArgs) :
    (a.input_files = none →
      handle_annotate_genomic_regions sp beh outFS a
        = ⟨.error "\x27input_files\x27", false, false⟩)
    ∧ (∀ inf, a.input_files = some inf → a.genome_build = none →
        handle_annotate_genomic_regions sp beh outFS a
          = ⟨.error "\x27genome_build\x27", false, false⟩)
    ∧ (∀ inf g, a.input_files = some inf → a.genome_build = some g →
        a.output_directory = none →
        handle_annotate_genomic_regions sp beh outFS a
          = ⟨.error "\x27output_directory\x27", false, false⟩)
    ∧ (∀ inf g od, a.input_files = some inf → a.genome_build = some g →
        a.output_directory = some od → is_supported g = false →
        handle_annotate_genomic_regions sp beh outFS a
          = ⟨.ok [⟨"Error: Unsupported genome build \x27" ++ g
              ++ "\x27. Available: " ++ String.intercalate ", " list_genomes⟩],
            false, false⟩)
    ∧ (∀ g od, a.input_files = some (.many []) → a.genome_build = some g →
        a.output_directory = some od → is_supported g = true →
        (handle_annotate_genomic_regions sp beh outFS a).ranSupervisor
          = true) := by
  refine ⟨?_, ?_, ?_, ?_, ?_⟩
  · intro h1
    unfold handle_annotate_genomic_regions
    rw [h1]
  · intro inf h1 h2
    unfold handle_annotate_genomic_regions
    rw [h1, h2]
  · intro inf g h1 h2 h3
    unfold handle_annotate_genomic_regions
    rw [h1, h2, h3]
  · intro inf g od h1 h2 h3 hg
    unfold handle_annotate_genomic_regions
    rw [h1, h2, h3]
    simp [hg]
  · intro g od h1 h2 h3 hg
    unfold handle_annotate_genomic_regions
    rw [h1, h2, h3]
    simp only [hg, Bool.not_true, Bool.false_eq_true, if_false]
    rcases hro : ( run_annotation sp (.many []) g od a.sample_name
        (a.include_cpg.getD true) (a.include_genic.getD true)
        (some (a.plot_formats.getD ["png", "pdf"]))
        (a.combine_analysis.getD false) "*.bed" (a.timeout.getD 300)
        beh outFS).result with e | res
    · simp [hro]
    · simp only [hro]
      split <;> rfl

/-- Witness for C3 (amended): at concrete inputs, a missing
`input_files` key yields the `KeyError` outcome, and an unsupported
genome (`"hg37"`) yields the validation text without reaching the
supervisor. -/
theorem annotate_validation_order_witness :
    handle_annotate_genomic_regions "/s.R" (.exits 0 "" "") none {}
      = ⟨.error "\x27input_files\x27", false, false⟩
    ∧ (handle_annotate_genomic_regions "/s.R" (.exits 0 "" "") none
        { input_files := some (.single "a.bed"),
          genome_build := some "hg37",
          output_directory := some "/out" }).ranSupervisor = false :=
  ⟨(annotate_validation_order "/s.R" (.exits 0 "" "") none {}).1 rfl,
   by
    rw [(annotate_validation_order "/s.R" (.exits 0 "" "") none
      { input_files := some (.single "a.bed"), genome_build := some "hg37",
        output_directory := some "/out" }).2.2.2.1
      (.single "a.bed") "hg37" "/out" rfl rfl rfl (by decide)]⟩

/-- C5: whenever the invoked handler raises (the dispatch body yields an
error), `handle_call_tool` returns the uniform error response whose
text carries both the tool name and the exception's message; the
dispatcher itself is a total function into response lists, so no
handler exception escapes it. -/
theorem dispatcher_catches_handler_errors (sp : String) (beh : ProcBehavior)
    (outFS : Option (List FSEntry)) (env : HandlerEnv) (name : String)
    (args : RawArgs) (e : String)
    (h : (dispatch_body sp beh outFS env name args).resp = .error e) :
    handle_call_tool (some sp) beh outFS env name args
      = [⟨"Error executing " ++ name ++ ": " ++ e⟩]
    ∧ strContains ("Error executing " ++ name ++ ": " ++ e) name = true
    ∧ strContains ("Error executing " ++ name ++ ": " ++ e) e = true := by
  refine ⟨?_, ?_, ?_⟩
  · have hred : handle_call_tool (some sp) beh outFS env name args
        = match (dispatch_body sp beh outFS env name args).resp with
          | .ok r => r
          | .error e => [⟨"Error executing " ++ name ++ ": " ++ e⟩] := rfl
    rw [hred, h]
  · rw [String.append_assoc ("Error executing " ++ name) ": " e]
    exact strContains_sandwich "Error executing " name (": " ++ e)
  · exact strContains_append_self ("Error executing " ++ name ++ ": ") e

/-- Witness for C5: calling the annotation tool with an empty argument
bag raises `KeyError('input_files')` inside the handler, and the
dispatcher converts it into the uniform error response. -/
theorem dispatcher_catches_handler_errors_witness :
    handle_call_tool (some "/s.R") (.exits 0 "" "") none trivEnv
      "annotate_genomic_regions" {}
      = [⟨"Error executing annotate_genomic_regions: \x27input_files\x27"⟩] := by
  rw [(dispatcher_catches_handler_errors "/s.R" (.exits 0 "" "") none trivEnv
      "annotate_genomic_regions" {} "\x27input_files\x27" rfl).1]
  decide

/-- C6 counterexample: with the global runner handle uninitialized,
dispatching the unregistered name `"bogus_tool"` returns the fixed
not-initialized response, whose text does not contain the name — so the
claim fails in that state (the claim as stated quantifies over every
dispatch state). -/
theorem unknown_tool_uninitialized_counterexample :
    handle_call_tool none (.exits 0 "" "") none trivEnv "bogus_tool" {}
      = [⟨notInitializedText⟩]
    ∧ strContains notInitializedText "bogus_tool" = false :=
  ⟨rfl, by decide⟩

/-- C6 (amended): once the runner handle is initialized, dispatching any
unregistered name returns (never raises) the error response
`"Unknown tool: <name>"`, whose text contains the name; the simple
server's dispatcher does the same unconditionally. -/
theorem unknown_tool_error_response (sp : String) (beh : ProcBehavior)
    (outFS : Option (List FSEntry)) (env : HandlerEnv) (name : String)
    (args : RawArgs)
    (h : name ∉ ["annotate_genomic_regions", "list_supported_genomes",
      "validate_bed_format", "get_annotation_summary",
      "create_comparison_plot"]) :
    handle_call_tool (some sp) beh outFS env name args
      = [⟨"Unknown tool: " ++ name⟩]
    ∧ strContains ("Unknown tool: " ++ name) name = true
    ∧ (∀ senv : SimpleEnv, ∀ sargs : SimpleArgs,
        simple_handle_request senv
          ⟨some "tools/call", some ⟨some name, some sargs⟩⟩
          = .ok (.errorMsg ("Unknown tool: " ++ name))) := by
  simp only [List.mem_cons, List.not_mem_nil, or_false, not_or] at h
  obtain ⟨h1, h2, h3, h4, h5⟩ := h
  refine ⟨?_, strContains_append_self _ _, ?_⟩
  · have hred : handle_call_tool (some sp) beh outFS env name args
        = match (dispatch_body sp beh outFS env name args).resp with
          | .ok r => r
          | .error e => [⟨"Error executing " ++ name ++ ": " ++ e⟩] := rfl
    rw [hred]
    unfold dispatch_body
    simp [beq_eq_false_iff_ne.mpr h1, beq_eq_false_iff_ne.mpr h2,
      beq_eq_false_iff_ne.mpr h3, beq_eq_false_iff_ne.mpr h4,
      beq_eq_false_iff_ne.mpr h5]
  · intro senv sargs
    have hm1 : ((some "tools/call" : Option String) == some "tools/list")
        = false := by decide
    have hm2 : ((some "tools/call" : Option String) == some "tools/call")
        = true := by decide
    unfold simple_handle_request
    simp [hm1, hm2, beq_eq_false_iff_ne.mpr h1, beq_eq_false_iff_ne.mpr h2,
      beq_eq_false_iff_ne.mpr h3]

/-- Witness for C6 (amended): the unregistered name `"bogus_tool"`
receives the unknown-tool response from the initialized dispatcher. -/
theorem unknown_tool_error_response_witness :
    handle_call_tool (some "/s.R") (.exits 0 "" "") none trivEnv
      "bogus_tool" {} = [⟨"Unknown tool: bogus_tool"⟩] := by
  rw [(unknown_tool_error_response "/s.R" (.exits 0 "" "") none trivEnv
      "bogus_tool" {} (by decide)).1]
  decide

/-- C7 counterexample: with the combine flag **not** requested but the
sample name equal to the literal `"--combine"`, the serialized command
line still ends with the element `"--combine"` — so "ends with the bare
combine flag exactly when requested" fails as stated. -/
theorem combine_tail_counterexample :
    (build_command_args "/s.R" (.single "a.bed") "hg38" "/out"
      (some "--combine") true true ["png", "pdf"] false "*.bed").getLast?
      = some "--combine" := by decide

/-- C7 (amended): the serialized command line carries `-i` followed by
the comma-joined inputs, `-g` followed by the genome, `-o` followed by
the output directory, in that order; the sample and pattern flags are
omitted at their defaults; when combine is requested the line ends with
the bare `--combine`; and — provided no serialized field value itself
equals the literal `"--combine"` — only then. -/
theorem command_serialization (sp : String) (inputs : InputFiles)
    (g o : String) (sn : Option String) (cpg gen : Bool)
    (pf : List String) (comb : Bool) (pat : String) :
    (∃ m1 m2 suf,
      build_command_args sp inputs g o sn cpg gen pf comb pat
        = ["Rscript", sp] ++ ["-i", inputStr inputs] ++ m1
          ++ ["-g", g] ++ m2 ++ ["-o", o] ++ suf)
    ∧ (sn = none → pat = "*.bed" →
        build_command_args sp inputs g o sn cpg gen pf comb pat
          = ["Rscript", sp, "-i", inputStr inputs, "-g", g, "-o", o,
             "--formats", String.intercalate "," pf]
            ++ (if comb then ["--combine"] else []))
    ∧ (comb = true →
        (build_command_args sp inputs g o sn cpg gen pf comb pat).getLast?
          = some "--combine")
    ∧ (comb = false → sn ≠ some "--combine" → pat ≠ "--combine" →
        String.intercalate "," pf ≠ "--combine" →
        (build_command_args sp inputs g o sn cpg gen pf comb pat).getLast?
          ≠ some "--combine") := by
  refine ⟨?_, ?_, ?_, ?_⟩
  · refine ⟨[], [], ["--formats", String.intercalate "," pf]
      ++ (match sn with
          | some s => if s.isEmpty then [] else ["-n", s]
          | none => [])
      ++ (if pat != "*.bed" then ["--pattern", pat] else [])
      ++ (if comb then ["--combine"] else []), ?_⟩
    unfold build_command_args
    simp
  · intro hsn hpat
    subst hsn; subst hpat
    unfold build_command_args
    simp
  · intro hc
    subst hc
    unfold build_command_args
    rw [if_pos rfl, List.getLast?_concat]
  · intro hc hs hp hf
    subst hc
    unfold build_command_args
    rw [show (if false = true then ["--combine"] else ([] : List String)) = []
      from rfl, List.append_nil]
    cases hpat : pat != "*.bed" with
    | true =>
      rw [if_pos rfl, List.getLast?_append]
      simp [hp]
    | false =>
      rw [show (if false = true then ["--pattern", pat] else ([] : List String))
        = [] from rfl, List.append_nil]
      cases sn with
      | none =>
        simp [hf]
      | some sval =>
        have hs' : sval ≠ "--combine" := fun he => hs (by rw [he])
        cases hse : sval.isEmpty with
        | true =>
          simp [hse, hf]
        | false =>
          rw [show (match some sval with
              | some s => if s.isEmpty then [] else ["-n", s]
              | none => ([] : List String))
              = if sval.isEmpty then [] else ["-n", sval] from rfl]
          rw [if_neg (by simp [hse]), List.getLast?_append]
          simp [hs']

/-- Witness for C7 (amended): the spec's round-trip example — two input
files, `mm10`, `/out`, combine requested — serializes to the expected
command line ending in the bare `--combine`. -/
theorem command_serialization_witness :
    build_command_args "/s.R" (.many ["a.bed", "b.bed"]) "mm10" "/out"
      none true true ["png", "pdf"] true "*.bed"
      = ["Rscript", "/s.R", "-i", "a.bed,b.bed", "-g", "mm10", "-o", "/out",
         "--formats", "png,pdf", "--combine"]
    ∧ (build_command_args "/s.R" (.many ["a.bed", "b.bed"]) "mm10" "/out"
        none true true ["png", "pdf"] true "*.bed").getLast?
        = some "--combine" := by
  have h := command_serialization "/s.R" (.many ["a.bed", "b.bed"]) "mm10"
    "/out" none true true ["png", "pdf"] true "*.bed"
  refine ⟨?_, h.2.2.1 rfl⟩
  rw [h.2.1 rfl rfl]
  decide

/-- C8: the transport loop emits exactly one response per input line and
returns normally exactly when the input is exhausted; a malformed line
is answered with the fixed protocol error code `-32603` at its own
position, and every later line is still processed. -/
theorem transport_loop_per_line (env : SimpleEnv) (lines : List InLine) :
    run_stdio_loop env lines = lines.map (processLine env)
    ∧ (run_stdio_loop env lines).length = lines.length
    ∧ (∀ i e, lines.get? i = some (.malformed e) →
        (run_stdio_loop env lines).get? i
          = some (.protocolError (-32603) e)) := by
  have hmap : run_stdio_loop env lines = lines.map (processLine env) := by
    induction lines with
    | nil => rfl
    | cons l t ih => simp [run_stdio_loop, ih]
  refine ⟨hmap, by rw [hmap]; simp, ?_⟩
  intro i e hi
  rw [hmap, List.get?_map, hi]
  rfl

/-- Witness for C8: a malformed first line gets the `-32603` protocol
error, and the session continues (the following `tools/list` request is
still answered). -/
theorem transport_loop_witness :
    (run_stdio_loop trivSimpleEnv
      [.malformed "Expecting value", .parsed ⟨some "tools/list", none⟩]).get? 0
      = some (.protocolError (-32603) "Expecting value")
    ∧ run_stdio_loop trivSimpleEnv
        [.malformed "Expecting value", .parsed ⟨some "tools/list", none⟩]
        = [.protocolError (-32603) "Expecting value",
           .toolsList registeredSimpleTools] := by
  have h := transport_loop_per_line trivSimpleEnv
    [.malformed "Expecting value", .parsed ⟨some "tools/list", none⟩]
  exact ⟨h.2.2 0 "Expecting value" rfl, by rw [h.1]; rfl⟩

/-- C10: whenever the global runner handle is `none`, `handle_call_tool`
returns the fixed not-initialized response for every tool name and
argument bag — in particular the response is never the unknown-tool
response, whatever the name. -/
theorem uninitialized_runner_fixed_response (beh : ProcBehavior)
    (outFS : Option (List FSEntry)) (env : HandlerEnv) (name : String)
    (args : RawArgs) :
    handle_call_tool none beh outFS env name args = [⟨notInitializedText⟩]
    ∧ ((notInitializedText == "Unknown tool: " ++ name) = false) := by
  refine ⟨rfl, ?_⟩
  rw [beq_eq_false_iff_ne]
  intro hEq
  have hhead := congrArg (fun s => s.data.head?) hEq
  simp only [String.data_append, List.head?_append] at hhead
  have h1 : notInitializedText.data.head? = some 'E' := rfl
  have h2 : "Unknown tool: ".data.head? = some 'U' := rfl
  rw [h1, h2] at hhead
  simp at hhead

end Annomics
